import Mathlib

set_option maxRecDepth 100000

attribute [local semireducible] Rat.mul Rat.inv Rat.add Rat.sub

/-!
Verification development for the Hyperliquid trading bot repository.

The embedding covers the order-signing and submission pipeline:
the canonical msgpack serialization of exchange actions, the Keccak-256
action hash, the EIP-712 phantom-agent payload, the signing entry points
of both the standalone script and the bot class, the order normalization
(reference-price band, tick rounding, size formatting), the gateway
success classification, and the leverage clamp.

Bytes are modelled as natural numbers below 256 and byte strings as
List Nat.  Python floats on the price/size path are modelled as rational
numbers; Python round with its round-half-to-even tie rule is modelled
explicitly.
-/

/-- Big-endian encoding of n on k bytes, as in Python int.to_bytes(k, big). -/
def uint_be (n : Nat) (k : Nat) : List Nat :=
  (List.range k).map (fun i => (n >>> (8 * (k - 1 - i))) % 256)

/-- Little-endian byte of a 64-bit lane. -/
def laneByte (lane : Nat) (j : Nat) : Nat := (lane >>> (8 * j)) % 256

/-- Rotate a 64-bit word left by n bits (0 <= n < 64). -/
def rotl64 (x n : Nat) : Nat :=
  ((x <<< n) % 18446744073709551616) ||| (x >>> (64 - n))

/-- The 24 round constants of Keccak-f[1600]. -/
def keccakRC : List Nat :=
  [1, 32898, 9223372036854808714, 9223372039002292224,
   32907, 2147483649, 9223372039002292353, 9223372036854808585,
   138, 136, 2147516425, 2147483658,
   2147516555, 9223372036854775947, 9223372036854808713, 9223372036854808579,
   9223372036854808578, 9223372036854775936, 32778, 9223372039002259466,
   9223372039002292353, 9223372036854808704, 2147483649, 9223372039002292232]

/-- Walk of the pi orbit starting at lane (1,0): step t pairs the current
lane index with the rotation amount (t+1)(t+2)/2 mod 64, then moves to
(y, 2x+3y mod 5). -/
def rhoWalk : Nat → Nat → Nat → Nat → List (Nat × Nat)
  | 0, _, _, _ => []
  | Nat.succ k, x, y, t =>
      (x + 5 * y, (t + 1) * (t + 2) / 2 % 64) :: rhoWalk k y ((2 * x + 3 * y) % 5) (t + 1)

/-- Rotation offsets of the rho step, indexed by lane x + 5 * y; lane 0
rotates by 0 and the rest follow the orbit walk. -/
def rhoOffsets : List Nat :=
  (List.range 25).map (fun i => ((rhoWalk 24 1 0 0).lookup i).getD 0)

/-- Source lane of the combined rho-pi step for each target lane. -/
def piSource : List Nat :=
  [0, 6, 12, 18, 24, 3, 9, 10, 16, 22, 1, 7, 13, 19, 20,
   4, 5, 11, 17, 23, 2, 8, 14, 15, 21]

/-- Theta step of Keccak-f[1600] on a 25-lane state. -/
def keccakTheta (A : List Nat) : List Nat :=
  let C := (List.range 5).map (fun x =>
    ((A.getD x 0 ^^^ A.getD (x + 5) 0) ^^^ A.getD (x + 10) 0) ^^^
      (A.getD (x + 15) 0 ^^^ A.getD (x + 20) 0))
  let D := (List.range 5).map (fun x =>
    C.getD ((x + 4) % 5) 0 ^^^ rotl64 (C.getD ((x + 1) % 5) 0) 1)
  (List.range 25).map (fun i => A.getD i 0 ^^^ D.getD (i % 5) 0)

/-- Combined rho and pi steps. -/
def keccakRhoPi (A : List Nat) : List Nat :=
  (List.range 25).map (fun j =>
    let s := piSource.getD j 0
    rotl64 (A.getD s 0) (rhoOffsets.getD s 0))

/-- Chi step. -/
def keccakChi (B : List Nat) : List Nat :=
  (List.range 25).map (fun j =>
    let row := 5 * (j / 5)
    B.getD j 0 ^^^
      ((B.getD (row + (j + 1) % 5) 0 ^^^ 18446744073709551615) &&&
        B.getD (row + (j + 2) % 5) 0))

/-- One round of Keccak-f[1600] with round constant rc. -/
def keccakRound (A : List Nat) (rc : Nat) : List Nat :=
  let B := keccakChi (keccakRhoPi (keccakTheta A))
  (B.getD 0 0 ^^^ rc) :: B.drop 1

/-- The full Keccak-f[1600] permutation. -/
def keccakF (A : List Nat) : List Nat := keccakRC.foldl keccakRound A

/-- Keccak (pre-NIST) padding to the 136-byte rate: append 0x01, zero
fill, set the highest bit of the last byte of the block. -/
def keccakPad (msg : List Nat) : List Nat :=
  let p := 136 - msg.length % 136
  if p = 1 then msg ++ [129]
  else msg ++ 1 :: (List.replicate (p - 2) 0 ++ [128])

/-- Lane i of a 136-byte block, little-endian. -/
def laneOfBytes (block : List Nat) (i : Nat) : Nat :=
  (List.range 8).foldl (fun acc j => acc ||| (block.getD (8 * i + j) 0 <<< (8 * j))) 0

/-- Absorb one 136-byte block into the state and permute. -/
def absorbBlock (A block : List Nat) : List Nat :=
  keccakF ((List.range 25).map (fun i =>
    if i < 17 then A.getD i 0 ^^^ laneOfBytes block i else A.getD i 0))

/-- Absorb the given number of 136-byte blocks of msg. -/
def absorbBlocks : List Nat → List Nat → Nat → List Nat
  | A, _, 0 => A
  | A, msg, Nat.succ n => absorbBlocks (absorbBlock A (msg.take 136)) (msg.drop 136) n

/-- Keccak-256 digest of a byte string, as 32 bytes. -/
def keccak256 (msg : List Nat) : List Nat :=
  let padded := keccakPad msg
  let A := absorbBlocks (List.replicate 25 0) padded (padded.length / 136)
  (List.range 32).map (fun i => laneByte (A.getD (i / 8) 0) (i % 8))

/-!
Msgpack values and serialization, following msgpack-python packb with its
default settings.  Actions built by the repository contain integers,
booleans, strings, arrays and string-keyed maps; maps keep the insertion
order of the underlying Python dict.
-/

/-- A msgpack-serializable value as used by the exchange actions. -/
inductive MPValue where
  | int : Int → MPValue
  | str : String → MPValue
  | bool : Bool → MPValue
  | list : List MPValue → MPValue
  | map : List (String × MPValue) → MPValue

/-- UTF-8 bytes of a single code point. -/
def utf8Char (c : Nat) : List Nat :=
  if c < 128 then [c]
  else if c < 2048 then [192 + c / 64, 128 + c % 64]
  else if c < 65536 then [224 + c / 4096, 128 + (c / 64) % 64, 128 + c % 64]
  else [240 + c / 262144, 128 + (c / 4096) % 64, 128 + (c / 64) % 64, 128 + c % 64]

/-- UTF-8 encoding of a string. -/
def utf8Bytes (s : String) : List Nat := (s.data.map (fun ch => utf8Char ch.toNat)).flatten

/-- Msgpack encoding of a (64-bit-range) integer, smallest format first. -/
def packInt (n : Int) : List Nat :=
  if 0 ≤ n then
    let m := n.toNat
    if m < 128 then [m]
    else if m < 256 then [204, m]
    else if m < 65536 then 205 :: uint_be m 2
    else if m < 4294967296 then 206 :: uint_be m 4
    else 207 :: uint_be m 8
  else
    if -32 ≤ n then [(n + 256).toNat]
    else if -128 ≤ n then [208, (n + 256).toNat]
    else if -32768 ≤ n then 209 :: uint_be (n + 65536).toNat 2
    else if -2147483648 ≤ n then 210 :: uint_be (n + 4294967296).toNat 4
    else 211 :: uint_be (n + 18446744073709551616).toNat 8

/-- Msgpack encoding of a str value. -/
def packStr (s : String) : List Nat :=
  let bs := utf8Bytes s
  let len := bs.length
  (if len < 32 then [160 + len]
   else if len < 256 then [217, len]
   else if len < 65536 then 218 :: uint_be len 2
   else 219 :: uint_be len 4) ++ bs

/-- Msgpack array header. -/
def arrayHeader (len : Nat) : List Nat :=
  if len < 16 then [144 + len]
  else if len < 65536 then 220 :: uint_be len 2
  else 221 :: uint_be len 4

/-- Msgpack map header. -/
def mapHeader (len : Nat) : List Nat :=
  if len < 16 then [128 + len]
  else if len < 65536 then 222 :: uint_be len 2
  else 223 :: uint_be len 4

mutual

/-- Msgpack serialization of a value (msgpack-python packb): maps are
written in insertion order, without any key sorting. -/
def packb : MPValue → List Nat
  | .int n => packInt n
  | .str s => packStr s
  | .bool b => if b then [195] else [194]
  | .list xs => arrayHeader xs.length ++ packSeq xs
  | .map kvs => mapHeader kvs.length ++ packPairs kvs

/-- Serialization of the elements of an array, in order. -/
def packSeq : List MPValue → List Nat
  | [] => []
  | x :: xs => packb x ++ packSeq xs

/-- Serialization of the entries of a map, in insertion order. -/
def packPairs : List (String × MPValue) → List Nat
  | [] => []
  | (k, v) :: kvs => packStr k ++ packb v ++ packPairs kvs

end

/-!
The standalone script hyperliquid_minimal_order.py: the exact SDK
implementation of action hashing and EIP-712 signing.
-/

/-- Numeric value of a hexadecimal character. -/
def hexVal (c : Char) : Nat :=
  if 48 ≤ c.toNat ∧ c.toNat ≤ 57 then c.toNat - 48
  else if 97 ≤ c.toNat ∧ c.toNat ≤ 102 then c.toNat - 87
  else if 65 ≤ c.toNat ∧ c.toNat ≤ 70 then c.toNat - 55
  else 0

/-- ASCII lowercasing of one character, as Python str.lower on hex text. -/
def lowerChar (c : Char) : Char :=
  if 65 ≤ c.toNat ∧ c.toNat ≤ 90 then Char.ofNat (c.toNat + 32) else c

/-- Decode pairs of hex characters into bytes, as Python bytes.fromhex. -/
def hexPairsToBytes : List Char → List Nat
  | c1 :: c2 :: rest => (hexVal c1 * 16 + hexVal c2) :: hexPairsToBytes rest
  | _ => []

/-- address_to_bytes: strip the 0x prefix, lowercase, hex-decode. -/
def address_to_bytes (address : String) : List Nat :=
  hexPairsToBytes ((address.data.drop 2).map lowerChar)

/-- Lowercase hex digit character. -/
def hexDigit (d : Nat) : Char := Char.ofNat (if d < 10 then d + 48 else d + 87)

/-- Lowercase hex rendering of a byte string, as Python bytes.hex(). -/
def bytesToHex (bs : List Nat) : String :=
  String.mk ((bs.map (fun b => [hexDigit (b / 16), hexDigit (b % 16)])).flatten)

/-- action_hash: msgpack the action, append the nonce on 8 big-endian
bytes, append the vault-address marker bytes, append the optional expiry
marker and value, and take the Keccak-256 digest. -/
def action_hash (action : MPValue) (vault_address : Option String) (nonce : Nat)
    (expires_after : Option Nat) : List Nat :=
  let data := packb action
  let data := data ++ uint_be nonce 8
  let data := data ++
    (match vault_address with
     | none => [0]
     | some addr => 1 :: address_to_bytes addr)
  let data := data ++
    (match expires_after with
     | none => []
     | some t => 0 :: uint_be t 8)
  keccak256 data

/-- The phantom agent derived from a digest. -/
structure PhantomAgent where
  source : String
  connectionId : String
deriving DecidableEq

/-- construct_phantom_agent: source a on mainnet, b otherwise;
connectionId is 0x followed by the lowercase hex of the digest. -/
def construct_phantom_agent (hash_bytes : List Nat) (is_mainnet : Bool) : PhantomAgent :=
  { source := if is_mainnet then "a" else "b",
    connectionId := "0x" ++ bytesToHex hash_bytes }

/-- The EIP-712 domain of the signed document. -/
structure TypedDataDomain where
  chainId : Nat
  name : String
  verifyingContract : String
  version : String
deriving DecidableEq

/-- One field of an EIP-712 type schema. -/
structure EIP712Field where
  name : String
  fieldType : String
deriving DecidableEq

/-- The full typed-data document handed to the signer. -/
structure TypedDataDocument where
  domain : TypedDataDomain
  types : List (String × List EIP712Field)
  primaryType : String
  message : PhantomAgent
deriving DecidableEq

/-- l1_payload: the fixed domain, type schema and primary type around the
phantom-agent message. -/
def l1_payload (phantom_agent : PhantomAgent) : TypedDataDocument :=
  { domain :=
      { chainId := 1337,
        name := "Exchange",
        verifyingContract := "0x0000000000000000000000000000000000000000",
        version := "1" },
    types :=
      [("Agent",
        [{ name := "source", fieldType := "string" },
         { name := "connectionId", fieldType := "bytes32" }]),
       ("EIP712Domain",
        [{ name := "name", fieldType := "string" },
         { name := "version", fieldType := "string" },
         { name := "chainId", fieldType := "uint256" },
         { name := "verifyingContract", fieldType := "address" }])],
    primaryType := "Agent",
    message := phantom_agent }

/-- An ECDSA signature as returned by the signing path. -/
structure Signature where
  r : String
  s : String
  v : Nat
deriving DecidableEq

/-- An eth_account wallet object, as produced by Account.from_key. -/
structure Wallet where
  key : String
deriving DecidableEq

/-- Ambient process state available to the code: pending network
responses and the process clock.  The signing path never touches it. -/
structure Ambient where
  httpResponses : List (String × String)
  clockMs : Nat

/-- sign_l1_action_exact of the standalone script: hash the action, build
the phantom agent and the typed-data payload, and sign it with the given
wallet.  The typed-data encoding plus deterministic ECDSA of eth_account
is the function argument signTyped. -/
def sign_l1_action_exact (signTyped : Wallet → TypedDataDocument → Signature)
    (amb : Ambient) (wallet : Wallet) (action : MPValue) (vault_address : Option String)
    (nonce : Nat) (expires_after : Option Nat) (is_mainnet : Bool) : Signature :=
  let _ := amb
  let hash_bytes := action_hash action vault_address nonce expires_after
  let phantom_agent := construct_phantom_agent hash_bytes is_mainnet
  let data := l1_payload phantom_agent
  signTyped wallet data

/-!
The bot class hyperliquid_bot_executable_orders.py.  Its
sign_l1_action_exact method re-implements the script helpers as nested
functions with identical bodies; they are embedded here under the class
namespace, and the method derives the wallet from the private key held by
the instance.
-/

/-- Instance state of the bot that the signing path can see. -/
structure HyperliquidTradingBotExecutable where
  private_key : String
  wallet_address : String

namespace HyperliquidTradingBotExecutable

/-- The nested address_to_bytes of the bot method, identical to the
script version. -/
def address_to_bytes (address : String) : List Nat :=
  hexPairsToBytes ((address.data.drop 2).map lowerChar)

/-- The nested action_hash of the bot method, identical to the script
version. -/
def action_hash (action : MPValue) (vault_address : Option String) (nonce : Nat)
    (expires_after : Option Nat) : List Nat :=
  let data := packb action
  let data := data ++ uint_be nonce 8
  let data := data ++
    (match vault_address with
     | none => [0]
     | some addr => 1 :: address_to_bytes addr)
  let data := data ++
    (match expires_after with
     | none => []
     | some t => 0 :: uint_be t 8)
  keccak256 data

/-- The nested construct_phantom_agent of the bot method. -/
def construct_phantom_agent (hash_bytes : List Nat) (is_mainnet : Bool) : PhantomAgent :=
  { source := if is_mainnet then "a" else "b",
    connectionId := "0x" ++ bytesToHex hash_bytes }

/-- The nested l1_payload of the bot method. -/
def l1_payload (phantom_agent : PhantomAgent) : TypedDataDocument :=
  { domain :=
      { chainId := 1337,
        name := "Exchange",
        verifyingContract := "0x0000000000000000000000000000000000000000",
        version := "1" },
    types :=
      [("Agent",
        [{ name := "source", fieldType := "string" },
         { name := "connectionId", fieldType := "bytes32" }]),
       ("EIP712Domain",
        [{ name := "name", fieldType := "string" },
         { name := "version", fieldType := "string" },
         { name := "chainId", fieldType := "uint256" },
         { name := "verifyingContract", fieldType := "address" }])],
    primaryType := "Agent",
    message := phantom_agent }

/-- The bot method sign_l1_action_exact: rebuild the wallet from the
stored private key with Account.from_key (the function argument fromKey),
then run the same hash, phantom-agent, payload and signing steps as the
script. -/
def sign_l1_action_exact (fromKey : String → Wallet)
    (signTyped : Wallet → TypedDataDocument → Signature) (amb : Ambient)
    (self : HyperliquidTradingBotExecutable) (action : MPValue)
    (vault_address : Option String) (nonce : Nat) (expires_after : Option Nat)
    (is_mainnet : Bool) : Signature :=
  let _ := amb
  let account := fromKey self.private_key
  let hash_bytes := action_hash action vault_address nonce expires_after
  let phantom_agent := construct_phantom_agent hash_bytes is_mainnet
  let data := l1_payload phantom_agent
  signTyped account data

end HyperliquidTradingBotExecutable

/-!
The exchange gateway: how an order-submission HTTP response is
classified.  The parsed response body is modelled by its top-level status
field (absent keys read as a missing value) and the statuses list found
under response.data (an absent path reads as the empty list).
-/

/-- One entry of response.data.statuses; only the presence of an error
key matters to the classification. -/
structure StatusEntry where
  error : Option String
deriving DecidableEq

/-- The parsed body of an order-submission response. -/
structure ExchangeResult where
  status : Option String
  statuses : List StatusEntry
deriving DecidableEq

/-- The per-entry error scan of execute_real_order: return at the first
entry carrying an error key. -/
def statuses_have_error : List StatusEntry → Bool
  | [] => false
  | st :: rest => if st.error.isSome then true else statuses_have_error rest

/-- Success classification of execute_real_order: HTTP 200, top-level
status ok, and no statuses entry with an error key. -/
def execute_real_order_success (http_status : Nat) (result : ExchangeResult) : Bool :=
  if http_status = 200 then
    if result.status = some "ok" then
      if statuses_have_error result.statuses then false else true
    else false
  else false

/-- Success classification of send_minimal_order in the standalone
script: any HTTP 200 response is reported as a success, whatever the
body says. -/
def send_minimal_order_success (http_status : Nat) (result : ExchangeResult) : Bool :=
  let _ := result
  http_status == 200

/-!
Order normalization.  Prices and sizes travel as Python floats; they are
modelled as rational numbers, and Python round (round half to even) is
modelled explicitly.  Metadata endpoints can succeed, answer with a
non-200 status, or raise; the three outcomes are the Fetch type.
-/

/-- Floor of a rational as an integer. -/
def ratFloor (q : ℚ) : Int := Int.fdiv q.num (q.den : Int)

/-- Python round to an integer: nearest, ties to even. -/
def pyRound (q : ℚ) : Int :=
  let f := ratFloor q
  let frac := q - (f : ℚ)
  if frac < 1 / 2 then f
  else if 1 / 2 < frac then f + 1
  else if f % 2 = 0 then f else f + 1

/-- Python round to p decimal places, ties to even. -/
def pyRoundDec (q : ℚ) (p : Nat) : ℚ :=
  ((pyRound (q * 10 ^ p) : ℚ)) / 10 ^ p

/-- Outcome of one HTTP fetch: parsed data, a non-200 response, or a
raised exception. -/
inductive Fetch (α : Type) where
  | ok : α → Fetch α
  | httpError : Fetch α
  | netError : Fetch α

/-- One asset of the meta endpoint universe list; absent keys are none. -/
structure AssetEntry where
  name : String
  maxLeverage : Option Nat
  markPx : Option ℚ

/-- _get_asset_id: index of the coin in the current universe list, none when
the coin is absent or the fetch failed. -/
def _get_asset_id (metaFetch : Fetch (List AssetEntry)) (coin : String) : Option Nat :=
  match metaFetch with
  | .ok univ => univ.findIdx? (fun a => a.name == coin)
  | .httpError => none
  | .netError => none

/-- Reference-price resolution inside execute_real_order: the markPx of
the first matching universe entry, defaulting to the market price. -/
def resolve_reference_price (univ : List AssetEntry) (coin : String) (price : ℚ) : ℚ :=
  match univ.find? (fun a => a.name == coin) with
  | some a => a.markPx.getD price
  | none => price

/-- The clamped limit price of execute_real_order: a band of five percent
around the reference price, a half-band bias cap toward the reference,
then a hard clamp into the band. -/
def compute_limit_price (price reference_price : ℚ) (is_buy : Bool) : ℚ :=
  let max_deviation := reference_price * (5 / 100)
  let limit_price :=
    if is_buy then min price (reference_price + max_deviation * (1 / 2))
    else max price (reference_price - max_deviation * (1 / 2))
  max (reference_price - max_deviation) (min limit_price (reference_price + max_deviation))

/-- The limit price before tick rounding: clamped into the band when the
meta fetch succeeded, the raw market price otherwise. -/
def resolve_limit_price (metaFetch : Fetch (List AssetEntry)) (coin : String)
    (price : ℚ) (is_buy : Bool) : ℚ :=
  match metaFetch with
  | .ok univ => compute_limit_price price (resolve_reference_price univ coin price) is_buy
  | .httpError => price
  | .netError => price

/-- The hardcoded asset-id-to-coin table of _get_tick_size_and_precision. -/
def assetIdCoinTable : List (Nat × String) :=
  [(0, "BTC"), (1, "ETH"), (5, "SOL"), (7, "BNB"), (65, "ADA")]

/-- Count trailing zero digits, up to the given fuel. -/
def countTrailingZeroDigits : Nat → Nat → Nat
  | _, 0 => 0
  | n, Nat.succ f => if n % 10 = 0 then 1 + countTrailingZeroDigits (n / 10) f else 0

/-- Decimal places of a price: format with ten decimal places (ties to
even) and strip trailing zeros, as the f-string manipulation does. -/
def decimal_places_of_price (p : ℚ) : Nat :=
  10 - countTrailingZeroDigits (pyRound (p * 10 ^ 10)).natAbs 10

/-- The hardcoded default tick sizes keyed by asset id. -/
def default_tick_sizes (asset_id : Nat) : ℚ :=
  (List.lookup asset_id
    [(0, (1 / 10 : ℚ)), (1, 1 / 100), (5, 1 / 1000), (7, 1 / 100), (65, 1 / 100000)]).getD
    (1 / 100)

/-- The hardcoded default decimal precisions keyed by asset id. -/
def default_precision (asset_id : Nat) : Nat :=
  (List.lookup asset_id [(0, 1), (1, 2), (5, 3), (7, 2), (65, 5)]).getD 2

/-- _get_tick_size_and_precision: derive tick size and precision from the
decimals of the live mid price; fall back to the default tables on a
non-200 answer or an unmapped asset, and to 0.01 with precision 2 (ADA
excepted) when the fetch raised. -/
def _get_tick_size_and_precision (midsFetch : Fetch (List (String × ℚ)))
    (asset_id : Nat) : ℚ × Nat :=
  match midsFetch with
  | .ok market_data =>
      match (List.lookup asset_id assetIdCoinTable).bind
          (fun coin => List.lookup coin market_data) with
      | some p =>
          let dp := decimal_places_of_price p
          (1 / 10 ^ dp, dp)
      | none => (default_tick_sizes asset_id, default_precision asset_id)
  | .httpError => (default_tick_sizes asset_id, default_precision asset_id)
  | .netError => if asset_id = 65 then (1 / 100000, 5) else (1 / 100, 2)

/-- The limit price actually placed on the wire: band resolution, then
rounding to the tick size, then rounding to the decimal precision. -/
def executed_limit_price (metaFetch : Fetch (List AssetEntry))
    (midsFetch : Fetch (List (String × ℚ))) (coin : String) (asset_id : Nat)
    (price : ℚ) (is_buy : Bool) : ℚ :=
  let limit_price := resolve_limit_price metaFetch coin price is_buy
  let tp := _get_tick_size_and_precision midsFetch asset_id
  pyRoundDec ((pyRound (limit_price / tp.1) : ℚ) * tp.1) tp.2

/-!
Decimal string formatting of prices and sizes.
-/

/-- Decimal digits of a natural number, most significant first. -/
def natDigitsAux : Nat → Nat → List Nat
  | 0, _ => []
  | _, 0 => []
  | Nat.succ f, n => natDigitsAux f (n / 10) ++ [n % 10]

/-- The character of one decimal digit. -/
def decDigit (d : Nat) : Char := Char.ofNat (d + 48)

/-- Decimal string of a natural number. -/
def natToString (n : Nat) : String :=
  if n = 0 then "0" else String.mk ((natDigitsAux (n + 1) n).map decDigit)

/-- Decimal string of an integer, as Python str on an int. -/
def intToDecString (n : Int) : String :=
  if n < 0 then "-" ++ natToString n.natAbs else natToString n.natAbs

/-- int() truncation of a float toward zero. -/
def pyIntTrunc (q : ℚ) : Int :=
  if q < 0 then -(((-q).num.toNat / (-q).den : Nat) : Int)
  else ((q.num.toNat / q.den : Nat) : Int)

/-- Smallest exponent k with den dividing 10 to the k, searched up to 30. -/
def decExpAux : Nat → Nat → Nat → Nat
  | 0, _, k => k
  | Nat.succ f, den, k => if 10 ^ k % den = 0 then k else decExpAux f den (k + 1)

/-- Decimal exponent of a denominator with terminating expansion. -/
def decExp (den : Nat) : Nat := decExpAux 31 den 0

/-- Decimal rendering of a nonnegative rational with terminating
expansion, with the trailing .0 Python str prints on an integral float.
This models Python str on a float whose shortest repr is that decimal
string, as holds for the concrete prices and sizes at issue. -/
def ratDecimalStringNonneg (q : ℚ) : String :=
  let ip := q.num.toNat / q.den
  let rem := q.num.toNat % q.den
  if rem = 0 then natToString ip ++ ".0"
  else
    let k := decExp q.den
    let digits := rem * 10 ^ k / q.den
    let ds := natToString digits
    natToString ip ++ "." ++ String.mk (List.replicate (k - ds.length) '0') ++ ds

/-- Decimal rendering of a rational, sign included. -/
def ratDecimalString (q : ℚ) : String :=
  if q < 0 then "-" ++ ratDecimalStringNonneg (-q) else ratDecimalStringNonneg q

/-- The size string of the order wire: str(int(size)) for the hardcoded
ADA case, plain str(size) for every other coin. -/
def size_wire (coin : String) (size : ℚ) : String :=
  if coin = "ADA" then intToDecString (pyIntTrunc size) else ratDecimalString size

/-- The wire-level order object built by execute_real_order; both the
ADA branch and the standard branch produce this map, differing only in
the size string. -/
def order_wire (asset_id : Nat) (is_buy : Bool) (limit_price size : ℚ)
    (coin : String) : MPValue :=
  .map [("a", .int asset_id), ("b", .bool is_buy),
        ("p", .str (ratDecimalString limit_price)),
        ("s", .str (size_wire coin size)),
        ("r", .bool false),
        ("t", .map [("limit", .map [("tif", .str "Gtc")])])]

/-- The order action wrapping one wire order. -/
def order_action (wire : MPValue) : MPValue :=
  .map [("type", .str "order"), ("orders", .list [wire]), ("grouping", .str "na")]

/-- The normalization and construction pipeline of execute_real_order up
to the signed action: resolve the asset id (fail closed when that fails),
resolve the limit price, round it, and build the action. -/
def execute_real_order_build (idFetch metaFetch : Fetch (List AssetEntry))
    (midsFetch : Fetch (List (String × ℚ))) (coin side : String)
    (size price : ℚ) : Option MPValue :=
  match _get_asset_id idFetch coin with
  | none => none
  | some asset_id =>
      let is_buy := side.toLower == "buy"
      let limit_price := executed_limit_price metaFetch midsFetch coin asset_id price is_buy
      some (order_action (order_wire asset_id is_buy limit_price size coin))

/-!
Leverage updates.
-/

/-- _get_max_leverage: the maxLeverage of the first matching universe
entry, 10 when the key or the coin is missing or the fetch failed. -/
def _get_max_leverage (metaFetch : Fetch (List AssetEntry)) (coin : String) : Nat :=
  match metaFetch with
  | .ok univ =>
      match univ.find? (fun a => a.name == coin) with
      | some a => a.maxLeverage.getD 10
      | none => 10
  | .httpError => 10
  | .netError => 10

/-- The updateLeverage action built by set_leverage. -/
def set_leverage_action (asset_id : Nat) (leverage : Nat) : MPValue :=
  .map [("type", .str "updateLeverage"), ("asset", .int asset_id),
        ("isCross", .bool true), ("leverage", .int leverage)]

/-- The construction pipeline of set_leverage up to the signed action:
resolve the asset id, clamp the requested leverage to the fetched
maximum, and build the action.  The clamped leverage is returned next to
the action for inspection. -/
def set_leverage_build (idFetch metaFetch : Fetch (List AssetEntry))
    (coin : String) (leverage : Nat) : Option (MPValue × Nat) :=
  match _get_asset_id idFetch coin with
  | none => none
  | some asset_id =>
      let max_leverage := _get_max_leverage metaFetch coin
      let lev := if leverage > max_leverage then max_leverage else leverage
      some (set_leverage_action asset_id lev, lev)

/-!
Supporting lemmas.
-/

/-- The embedded Keccak-256 reproduces the reference digest of the empty
string. -/
theorem keccak256_empty_vector :
    keccak256 [] =
      [197, 210, 70, 1, 134, 247, 35, 60, 146, 126, 125, 178, 220, 199, 3, 192,
       229, 0, 182, 83, 202, 130, 39, 59, 123, 250, 216, 4, 93, 133, 164, 112] := by
  decide

/-- The embedded Keccak-256 reproduces the reference digest of abc. -/
theorem keccak256_abc_vector :
    keccak256 [97, 98, 99] =
      [78, 3, 101, 122, 234, 69, 169, 79, 199, 212, 123, 168, 38, 200, 214, 103,
       192, 209, 230, 227, 58, 100, 160, 54, 236, 68, 245, 143, 161, 45, 108, 69] := by
  decide

/-- A Keccak-256 digest always has 32 bytes. -/
theorem keccak256_length (msg : List Nat) : (keccak256 msg).length = 32 := by
  simp [keccak256]

/-- The error scan returns false exactly when no entry carries an error
key. -/
theorem statuses_have_error_eq_false (l : List StatusEntry) :
    statuses_have_error l = false ↔ ∀ st ∈ l, st.error = none := by
  induction l with
  | nil => simp [statuses_have_error]
  | cons st rest ih =>
      cases hs : st.error with
      | none => simp [statuses_have_error, hs, ih]
      | some e => simp [statuses_have_error, hs]

/-!
The claims.
-/

/-- C1: for every action, nonce, optional vault address and optional
expiry, action_hash is the 32-byte Keccak-256 digest of the msgpack
serialization of the action, then the nonce on 8 big-endian bytes, then
a single zero byte when the vault address is absent or a one byte plus
the 20 decoded address bytes when present, then, only when the expiry is
present, a zero byte and the expiry on 8 big-endian bytes; the nested
copy inside the bot class computes the same digest. -/
theorem action_hash_layout (action : MPValue) (vault_address : Option String)
    (nonce : Nat) (expires_after : Option Nat) :
    action_hash action vault_address nonce expires_after =
      keccak256 (packb action ++ uint_be nonce 8 ++
        (match vault_address with
         | none => [0]
         | some addr => 1 :: address_to_bytes addr) ++
        (match expires_after with
         | none => []
         | some t => 0 :: uint_be t 8)) ∧
    (action_hash action vault_address nonce expires_after).length = 32 ∧
    HyperliquidTradingBotExecutable.action_hash action vault_address nonce expires_after =
      action_hash action vault_address nonce expires_after :=
  ⟨rfl, keccak256_length _, rfl⟩

/-- C2 (counterexample): the standalone script reports an order as
successful on any HTTP 200 response, even one whose body carries an
embedded per-order error and which the bot gateway classifies as a
failure. -/
theorem minimal_order_success_ignores_body :
    send_minimal_order_success 200
        { status := some "ok", statuses := [{ error := some "Insufficient margin" }] } = true ∧
    execute_real_order_success 200
        { status := some "ok", statuses := [{ error := some "Insufficient margin" }] } = false := by
  exact ⟨rfl, rfl⟩

/-- C2 (amended): the bot gateway execute_real_order reports success
exactly when the HTTP status is 200, the top-level status field is ok,
and no entry of the statuses list carries an error key. -/
theorem execute_real_order_success_iff (http_status : Nat) (result : ExchangeResult) :
    execute_real_order_success http_status result = true ↔
      (http_status = 200 ∧ result.status = some "ok" ∧
        ∀ st ∈ result.statuses, st.error = none) := by
  have key : execute_real_order_success http_status result = true ↔
      (http_status = 200 ∧ result.status = some "ok" ∧
        statuses_have_error result.statuses = false) := by
    unfold execute_real_order_success
    by_cases h1 : http_status = 200 <;> by_cases h2 : result.status = some "ok" <;>
      cases h3 : statuses_have_error result.statuses <;> simp [h1, h2, h3]
  rw [key, statuses_have_error_eq_false]

/-- C3 (counterexample): two actions with the same key-value pairs in
different insertion orders serialize to different byte strings and hash
to different digests. -/
theorem serialization_order_counterexample :
    List.Perm [("a", MPValue.int 1), ("b", MPValue.int 2)]
        [("b", MPValue.int 2), ("a", MPValue.int 1)] ∧
    packb (.map [("a", .int 1), ("b", .int 2)]) ≠
      packb (.map [("b", .int 2), ("a", .int 1)]) ∧
    action_hash (.map [("a", .int 1), ("b", .int 2)]) none 1700000000000 none ≠
      action_hash (.map [("b", .int 2), ("a", .int 1)]) none 1700000000000 none := by
  refine ⟨List.Perm.swap _ _ _, by decide, by decide⟩

/-- C3 (amended): the canonical serialization preserves the insertion
order of the fields rather than normalizing it: there are actions with
identical key-value pairs whose serializations, and hence action hashes,
differ because their fields were inserted in different orders. -/
theorem serialization_insertion_order_sensitive :
    ∃ kvs1 kvs2 : List (String × MPValue),
      List.Perm kvs1 kvs2 ∧
      packb (.map kvs1) ≠ packb (.map kvs2) ∧
      action_hash (.map kvs1) none 1 none ≠ action_hash (.map kvs2) none 1 none := by
  refine ⟨[("type", .str "order"),
           ("orders", .list [order_wire 1 true 100 (1 / 100) "ETH"]),
           ("grouping", .str "na")],
          [("grouping", .str "na"), ("type", .str "order"),
           ("orders", .list [order_wire 1 true 100 (1 / 100) "ETH"])],
          ?_, by decide, by decide⟩
  exact ((List.Perm.swap _ _ _).cons _).trans (List.Perm.swap _ _ _)

/-- C4: the typed-data document always carries the fixed domain with
chain id 1337, name Exchange, the zero verifying contract and version 1,
the fixed Agent and EIP712Domain schema with primary type Agent, and its
message is exactly the phantom agent built from the digest and the
network flag; between any two calls only the message differs. -/
theorem l1_payload_fixed_document (digest : List Nat) (is_mainnet : Bool) :
    (l1_payload (construct_phantom_agent digest is_mainnet)).domain =
        { chainId := 1337, name := "Exchange",
          verifyingContract := "0x0000000000000000000000000000000000000000",
          version := "1" } ∧
    (l1_payload (construct_phantom_agent digest is_mainnet)).primaryType = "Agent" ∧
    (l1_payload (construct_phantom_agent digest is_mainnet)).types =
        [("Agent",
          [{ name := "source", fieldType := "string" },
           { name := "connectionId", fieldType := "bytes32" }]),
         ("EIP712Domain",
          [{ name := "name", fieldType := "string" },
           { name := "version", fieldType := "string" },
           { name := "chainId", fieldType := "uint256" },
           { name := "verifyingContract", fieldType := "address" }])] ∧
    (l1_payload (construct_phantom_agent digest is_mainnet)).message =
        { source := if is_mainnet then "a" else "b",
          connectionId := "0x" ++ bytesToHex digest } ∧
    (∀ pa1 pa2 : PhantomAgent,
        (l1_payload pa1).domain = (l1_payload pa2).domain ∧
        (l1_payload pa1).types = (l1_payload pa2).types ∧
        (l1_payload pa1).primaryType = (l1_payload pa2).primaryType) :=
  ⟨rfl, rfl, rfl, rfl, fun _ _ => ⟨rfl, rfl, rfl⟩⟩

/-- C5: the signing entry points are pure functions of the private key
and the action tuple: the result is unchanged under any change of the
ambient network and clock state, and under replacing the bot instance by
any other instance holding the same private key. -/
theorem sign_l1_action_pure (fromKey : String → Wallet)
    (signTyped : Wallet → TypedDataDocument → Signature) (amb1 amb2 : Ambient)
    (self self2 : HyperliquidTradingBotExecutable) (action : MPValue)
    (vault_address : Option String) (nonce : Nat) (expires_after : Option Nat)
    (is_mainnet : Bool) (hkey : self2.private_key = self.private_key) :
    HyperliquidTradingBotExecutable.sign_l1_action_exact fromKey signTyped amb1 self
        action vault_address nonce expires_after is_mainnet =
      HyperliquidTradingBotExecutable.sign_l1_action_exact fromKey signTyped amb2 self2
        action vault_address nonce expires_after is_mainnet ∧
    sign_l1_action_exact signTyped amb1 (fromKey self.private_key) action vault_address
        nonce expires_after is_mainnet =
      sign_l1_action_exact signTyped amb2 (fromKey self.private_key) action vault_address
        nonce expires_after is_mainnet := by
  constructor
  · unfold HyperliquidTradingBotExecutable.sign_l1_action_exact
    rw [hkey]
  · rfl

/-- C5 witness: the purity theorem applied at a concrete signer, two
distinct ambient states and two instances sharing a private key. -/
theorem sign_l1_action_pure_witness :
    (HyperliquidTradingBotExecutable.mk "pk" "addr2").private_key =
        (HyperliquidTradingBotExecutable.mk "pk" "addr1").private_key ∧
    (HyperliquidTradingBotExecutable.sign_l1_action_exact (fun k => Wallet.mk k)
        (fun w d => Signature.mk w.key d.primaryType 27) (Ambient.mk [] 0)
        (HyperliquidTradingBotExecutable.mk "pk" "addr1") (.map []) none 1 none true =
      HyperliquidTradingBotExecutable.sign_l1_action_exact (fun k => Wallet.mk k)
        (fun w d => Signature.mk w.key d.primaryType 27) (Ambient.mk [("u", "r")] 5)
        (HyperliquidTradingBotExecutable.mk "pk" "addr2") (.map []) none 1 none true ∧
     sign_l1_action_exact (fun w d => Signature.mk w.key d.primaryType 27)
        (Ambient.mk [] 0)
        ((fun k => Wallet.mk k) (HyperliquidTradingBotExecutable.mk "pk" "addr1").private_key)
        (.map []) none 1 none true =
      sign_l1_action_exact (fun w d => Signature.mk w.key d.primaryType 27)
        (Ambient.mk [("u", "r")] 5)
        ((fun k => Wallet.mk k) (HyperliquidTradingBotExecutable.mk "pk" "addr1").private_key)
        (.map []) none 1 none true) :=
  ⟨rfl, sign_l1_action_pure (fun k => Wallet.mk k)
    (fun w d => Signature.mk w.key d.primaryType 27) (Ambient.mk [] 0)
    (Ambient.mk [("u", "r")] 5) (HyperliquidTradingBotExecutable.mk "pk" "addr1")
    (HyperliquidTradingBotExecutable.mk "pk" "addr2") (.map []) none 1 none true rfl⟩

/-- C6: on the path where the reference price resolves, the clamped
limit price lies within the five percent band around the reference price
(never above its upper bound on buys, never below its lower bound on
sells), and the price actually placed is that clamped price rounded to
the tick size and then to the decimal precision. -/
theorem limit_price_in_band (univ : List AssetEntry) (coin : String) (price : ℚ)
    (is_buy : Bool) (midsFetch : Fetch (List (String × ℚ))) (asset_id : Nat)
    (href : 0 ≤ resolve_reference_price univ coin price) :
    resolve_reference_price univ coin price -
        resolve_reference_price univ coin price * (5 / 100) ≤
      compute_limit_price price (resolve_reference_price univ coin price) is_buy ∧
    compute_limit_price price (resolve_reference_price univ coin price) is_buy ≤
      resolve_reference_price univ coin price +
        resolve_reference_price univ coin price * (5 / 100) ∧
    resolve_limit_price (.ok univ) coin price is_buy =
      compute_limit_price price (resolve_reference_price univ coin price) is_buy ∧
    executed_limit_price (.ok univ) midsFetch coin asset_id price is_buy =
      pyRoundDec ((pyRound (compute_limit_price price
            (resolve_reference_price univ coin price) is_buy /
            (_get_tick_size_and_precision midsFetch asset_id).1) : ℚ) *
          (_get_tick_size_and_precision midsFetch asset_id).1)
        (_get_tick_size_and_precision midsFetch asset_id).2 := by
  have hdev : 0 ≤ resolve_reference_price univ coin price * (5 / 100) :=
    mul_nonneg href (by norm_num)
  refine ⟨le_max_left _ _, max_le (by linarith) (min_le_right _ _), rfl, rfl⟩

/-- C6 witness: the band theorem at the concrete spec case of a buy at
raw price 96 against reference price 100. -/
theorem limit_price_in_band_witness :
    (0 : ℚ) ≤ resolve_reference_price [AssetEntry.mk "ETH" none (some 100)] "ETH" 96 ∧
    (resolve_reference_price [AssetEntry.mk "ETH" none (some 100)] "ETH" 96 -
        resolve_reference_price [AssetEntry.mk "ETH" none (some 100)] "ETH" 96 * (5 / 100) ≤
      compute_limit_price 96
        (resolve_reference_price [AssetEntry.mk "ETH" none (some 100)] "ETH" 96) true ∧
    compute_limit_price 96
        (resolve_reference_price [AssetEntry.mk "ETH" none (some 100)] "ETH" 96) true ≤
      resolve_reference_price [AssetEntry.mk "ETH" none (some 100)] "ETH" 96 +
        resolve_reference_price [AssetEntry.mk "ETH" none (some 100)] "ETH" 96 * (5 / 100) ∧
    resolve_limit_price (.ok [AssetEntry.mk "ETH" none (some 100)]) "ETH" 96 true =
      compute_limit_price 96
        (resolve_reference_price [AssetEntry.mk "ETH" none (some 100)] "ETH" 96) true ∧
    executed_limit_price (.ok [AssetEntry.mk "ETH" none (some 100)]) .httpError "ETH" 1 96 true =
      pyRoundDec ((pyRound (compute_limit_price 96
            (resolve_reference_price [AssetEntry.mk "ETH" none (some 100)] "ETH" 96) true /
            (_get_tick_size_and_precision .httpError 1).1) : ℚ) *
          (_get_tick_size_and_precision .httpError 1).1)
        (_get_tick_size_and_precision .httpError 1).2) :=
  ⟨by decide,
   limit_price_in_band [AssetEntry.mk "ETH" none (some 100)] "ETH" 96 true .httpError 1
     (by decide)⟩

/-- C7 (counterexample): for a standard asset the size string is the
plain decimal rendering of the input, not a value formatted to a size
precision: 0.0123 is sent as 0.0123, not 0.012. -/
theorem size_wire_standard_counterexample :
    size_wire "ETH" (123 / 10000) = "0.0123" ∧
    size_wire "ETH" (123 / 10000) ≠ "0.012" := by
  exact ⟨by decide, by decide⟩

/-- C7 (amended): the size string is str(int(size)), a truncation toward
zero, exactly for the hardcoded ADA case, with 16.7 sent as 16; for
every other coin the size string is the plain str of the float, with no
precision-based formatting, so 0.0123 stays 0.0123. -/
theorem size_wire_formats (size : ℚ) :
    size_wire "ADA" size = intToDecString (pyIntTrunc size) ∧
    size_wire "ADA" (167 / 10) = "16" ∧
    size_wire "ETH" (123 / 10000) = "0.0123" := by
  refine ⟨?_, by decide, by decide⟩
  simp [size_wire]

/-- C8 (counterexample): with the asset id resolved but both the
reference-price fetch and the tick-size fetch raising, the order is
still constructed, using the guessed default tick size of 0.01 with
precision 2. -/
theorem metadata_failure_still_builds_order :
    (execute_real_order_build (.ok [AssetEntry.mk "XYZ" none none]) .netError .netError
        "XYZ" "buy" 1 96).isSome = true ∧
    _get_tick_size_and_precision (Fetch.netError : Fetch (List (String × ℚ))) 0 =
        (1 / 100, 2) := by
  exact ⟨by decide, by decide⟩

/-- C8 (amended): only a failed asset-id lookup fails closed; when the
reference-price fetch fails the order is still built from the raw market
price, and when the tick-size fetch fails hardcoded default tick sizes
and precisions are used. -/
theorem normalization_fallback_behavior (metaFetch : Fetch (List AssetEntry))
    (midsFetch : Fetch (List (String × ℚ))) (coin side : String) (size price : ℚ)
    (is_buy : Bool) (asset_id : Nat) :
    execute_real_order_build .httpError metaFetch midsFetch coin side size price = none ∧
    execute_real_order_build .netError metaFetch midsFetch coin side size price = none ∧
    resolve_limit_price .httpError coin price is_buy = price ∧
    resolve_limit_price .netError coin price is_buy = price ∧
    _get_tick_size_and_precision .httpError asset_id =
        (default_tick_sizes asset_id, default_precision asset_id) ∧
    _get_tick_size_and_precision .netError asset_id =
        (if asset_id = 65 then (1 / 100000, 5) else (1 / 100, 2)) :=
  ⟨rfl, rfl, rfl, rfl, rfl, rfl⟩

/-- C9: the bot method sign_l1_action_exact computes exactly the same
signature as the standalone script function on every input, once the
wallet of the script is the one derived from the private key of the bot
instance. -/
theorem bot_sign_matches_script (fromKey : String → Wallet)
    (signTyped : Wallet → TypedDataDocument → Signature) (amb : Ambient)
    (self : HyperliquidTradingBotExecutable) (action : MPValue)
    (vault_address : Option String) (nonce : Nat) (expires_after : Option Nat)
    (is_mainnet : Bool) :
    HyperliquidTradingBotExecutable.sign_l1_action_exact fromKey signTyped amb self
        action vault_address nonce expires_after is_mainnet =
      sign_l1_action_exact signTyped amb (fromKey self.private_key) action
        vault_address nonce expires_after is_mainnet := rfl

/-- C10: the leverage written into the updateLeverage action is the
requested leverage clamped to the fetched maximum, so it never exceeds
that maximum, and the maximum defaults to 10 whenever the metadata fetch
fails or the coin is absent from the universe list. -/
theorem set_leverage_clamped (idFetch metaFetch : Fetch (List AssetEntry))
    (coin : String) (leverage asset_id : Nat)
    (h : _get_asset_id idFetch coin = some asset_id) :
    set_leverage_build idFetch metaFetch coin leverage =
        some (set_leverage_action asset_id
            (min leverage (_get_max_leverage metaFetch coin)),
          min leverage (_get_max_leverage metaFetch coin)) ∧
    min leverage (_get_max_leverage metaFetch coin) ≤ _get_max_leverage metaFetch coin ∧
    _get_max_leverage .httpError coin = 10 ∧
    _get_max_leverage .netError coin = 10 ∧
    _get_max_leverage (.ok []) coin = 10 := by
  have hm : (if leverage > _get_max_leverage metaFetch coin
      then _get_max_leverage metaFetch coin else leverage) =
      min leverage (_get_max_leverage metaFetch coin) := by
    by_cases hc : leverage > _get_max_leverage metaFetch coin
    · rw [if_pos hc, Nat.min_eq_right (Nat.le_of_lt hc)]
    · rw [if_neg hc, Nat.min_eq_left (Nat.le_of_not_lt hc)]
  refine ⟨?_, Nat.min_le_right _ _, rfl, rfl, rfl⟩
  simp only [set_leverage_build, h, hm]

/-- C10 witness: the clamping theorem at a concrete universe entry with
maximum leverage 40 and a request of 50. -/
theorem set_leverage_clamped_witness :
    _get_asset_id (.ok [AssetEntry.mk "BTC" (some 40) none]) "BTC" = some 0 ∧
    (set_leverage_build (.ok [AssetEntry.mk "BTC" (some 40) none])
          (.ok [AssetEntry.mk "BTC" (some 40) none]) "BTC" 50 =
        some (set_leverage_action 0
            (min 50 (_get_max_leverage (.ok [AssetEntry.mk "BTC" (some 40) none]) "BTC")),
          min 50 (_get_max_leverage (.ok [AssetEntry.mk "BTC" (some 40) none]) "BTC")) ∧
    min 50 (_get_max_leverage (.ok [AssetEntry.mk "BTC" (some 40) none]) "BTC") ≤
        _get_max_leverage (.ok [AssetEntry.mk "BTC" (some 40) none]) "BTC" ∧
    _get_max_leverage .httpError "BTC" = 10 ∧
    _get_max_leverage .netError "BTC" = 10 ∧
    _get_max_leverage (.ok []) "BTC" = 10) :=
  ⟨by decide,
   set_leverage_clamped (.ok [AssetEntry.mk "BTC" (some 40) none])
     (.ok [AssetEntry.mk "BTC" (some 40) none]) "BTC" 50 0 (by decide)⟩
